import Mathlib

/-!
Verification of the reliable domain-event delivery subsystem of the
`nestjs-clean-architeture` forum application.

The TypeScript source is shallowly embedded: time is `Nat` (milliseconds
since epoch), JavaScript exceptions are modelled with `Except`/`Option`
results, mutable class fields become explicit state records, and timer
callbacks (`setTimeout`) become entries of an explicit pending-work list
or a collapsed recursion, as documented at each definition.
-/

namespace CB

/-- `CircuitState` from `src/core/events/circuit-breaker.ts`. -/
inductive CircuitState
  | CLOSED
  | OPEN
  | HALF_OPEN
  deriving DecidableEq, Repr

/-- `CircuitBreakerConfig` from `circuit-breaker.ts`. -/
structure CircuitBreakerConfig where
  failureThreshold : Nat
  timeout : Nat
  monitoringPeriod : Nat
  halfOpenMaxCalls : Nat
  deriving Repr

/-- The mutable fields of class `CircuitBreaker` (`circuit-breaker.ts`).
`Date` fields are `Nat` timestamps in milliseconds. -/
structure CircuitBreaker where
  state : CircuitState
  failures : Nat
  successes : Nat
  lastFailureTime : Option Nat
  lastSuccessTime : Option Nat
  nextAttemptTime : Option Nat
  halfOpenCalls : Nat
  deriving DecidableEq, Repr

/-- Field initialisers of class `CircuitBreaker`: state `CLOSED`, all
counters zero, no timestamps. -/
def CircuitBreaker.initial : CircuitBreaker :=
  { state := CircuitState.CLOSED
    failures := 0
    successes := 0
    lastFailureTime := none
    lastSuccessTime := none
    nextAttemptTime := none
    halfOpenCalls := 0 }

/-- `CircuitBreaker.shouldAttemptReset`: true iff `nextAttemptTime` is set
and `Date.now() >= nextAttemptTime`. -/
def shouldAttemptReset (cb : CircuitBreaker) (now : Nat) : Bool :=
  match cb.nextAttemptTime with
  | some t => now ≥ t
  | none => false

/-- `CircuitBreaker.trip`: go to `OPEN`, set `nextAttemptTime = now + timeout`. -/
def trip (cfg : CircuitBreakerConfig) (cb : CircuitBreaker) (now : Nat) :
    CircuitBreaker :=
  { cb with
    state := CircuitState.OPEN
    nextAttemptTime := some (now + cfg.timeout) }

/-- `CircuitBreaker.reset`: back to `CLOSED`, clear failure and half-open
counters and the next-attempt timestamp. -/
def reset (cb : CircuitBreaker) : CircuitBreaker :=
  { cb with
    state := CircuitState.CLOSED
    failures := 0
    halfOpenCalls := 0
    nextAttemptTime := none }

/-- `CircuitBreaker.onSuccess`.  In `HALF_OPEN` the probe counter is
incremented and, once it reaches the literal `3` in the source, the breaker
resets to `CLOSED`; outside `HALF_OPEN` the failure counter resets to 0. -/
def onSuccess (cb : CircuitBreaker) (now : Nat) : CircuitBreaker :=
  let cb := { cb with successes := cb.successes + 1, lastSuccessTime := some now }
  if cb.state = CircuitState.HALF_OPEN then
    let cb := { cb with halfOpenCalls := cb.halfOpenCalls + 1 }
    if cb.halfOpenCalls ≥ 3 then reset cb else cb
  else
    { cb with failures := 0 }

/-- `CircuitBreaker.onFailure`.  A failure in `HALF_OPEN` trips immediately;
otherwise the breaker trips once `failures` reaches `failureThreshold`. -/
def onFailure (cfg : CircuitBreakerConfig) (cb : CircuitBreaker) (now : Nat) :
    CircuitBreaker :=
  let cb := { cb with failures := cb.failures + 1, lastFailureTime := some now }
  if cb.state = CircuitState.HALF_OPEN then
    trip cfg cb now
  else if cb.failures ≥ cfg.failureThreshold then
    trip cfg cb now
  else
    cb

/-- First block of `CircuitBreaker.execute`: the `OPEN`-state gate.  If the
breaker is `OPEN` and the timeout has elapsed it moves to `HALF_OPEN` with
`halfOpenCalls = 0`; if the timeout has not elapsed the call is rejected
(`some` error message) without touching the breaker. -/
def executeStep1 (cb : CircuitBreaker) (now : Nat) :
    Option String × CircuitBreaker :=
  if cb.state = CircuitState.OPEN then
    if shouldAttemptReset cb now then
      (none, { cb with state := CircuitState.HALF_OPEN, halfOpenCalls := 0 })
    else
      (some "Circuit Breaker is OPEN", cb)
  else
    (none, cb)

/-- Observable outcome of one `execute` call: either the call was rejected
before the wrapped operation ran (fail-fast, with the thrown message), or
the operation ran and succeeded, or it ran and its error was re-raised. -/
inductive ExecOutcome
  | rejected (msg : String)
  | succeeded
  | failed
  deriving DecidableEq, Repr

/-- `CircuitBreaker.execute`.  `opSucceeds` is the outcome the wrapped
operation would have if invoked; the `rejected` outcomes are exactly the
paths of the source that `throw` before `await operation()`. -/
def execute (cfg : CircuitBreakerConfig) (cb : CircuitBreaker) (now : Nat)
    (opSucceeds : Bool) : ExecOutcome × CircuitBreaker :=
  match executeStep1 cb now with
  | (some msg, cb1) => (ExecOutcome.rejected msg, cb1)
  | (none, cb1) =>
    if cb1.state = CircuitState.HALF_OPEN ∧
        cb1.halfOpenCalls ≥ cfg.halfOpenMaxCalls then
      (ExecOutcome.rejected "half-open max calls reached", cb1)
    else if opSucceeds then
      (ExecOutcome.succeeded, onSuccess cb1 now)
    else
      (ExecOutcome.failed, onFailure cfg cb1 now)

end CB

namespace Rel

/-- `RetryPolicy` from `src/core/events/domain-events-reliability.ts`. -/
structure RetryPolicy where
  maxRetries : Nat
  backoffMultiplier : Nat
  initialDelayMs : Nat
  maxDelayMs : Nat
  deriving DecidableEq, Repr

/-- `DomainEventsWithReliability.defaultRetryPolicy`. -/
def defaultRetryPolicy : RetryPolicy :=
  { maxRetries := 3
    backoffMultiplier := 2
    initialDelayMs := 1000
    maxDelayMs := 30000 }

/-- The delay computed at the top of `scheduleRetry` when it is invoked with
retry counter `retryCount`:
`min(initialDelayMs * backoffMultiplier^(retryCount - 1), maxDelayMs)`. -/
def retryDelay (p : RetryPolicy) (retryCount : Nat) : Nat :=
  min (p.initialDelayMs * p.backoffMultiplier ^ (retryCount - 1)) p.maxDelayMs

/-- Observable steps of `executeHandlerWithReliability` for one
`(event, handler)` pair, in program order: the observer notifications and
the two failure-path decisions (`scheduleRetry` / `moveToDeadLetter`).
`movedToDeadLetter` corresponds to `moveToDeadLetter`, which constructs one
`FailedEvent`, pushes it onto the quarantine list `failedEvents` and
notifies the observers. -/
inductive ExecEffect
  | started (retryCount : Nat)
  | completed (retryCount : Nat)
  | failedNotice (retryCount : Nat)
  | retryScheduled (retryCount : Nat) (delayMs : Nat)
  | movedToDeadLetter (retryCount : Nat)
  deriving DecidableEq, Repr

/-- `executeHandlerWithReliability` with every `setTimeout` retry callback
run to completion (the collapsed retry chain).  `outcomes k` is whether the
handler invocation whose retry counter is `k` succeeds.  On failure with
`retryCount < maxRetries` the source calls `scheduleRetry`, which notifies
the observers and arms a timer that re-enters
`executeHandlerWithReliability` with `retryCount + 1`; here that re-entry
is inlined.  Otherwise it calls `moveToDeadLetter`. -/
def executeHandlerWithReliability (p : RetryPolicy) (outcomes : Nat → Bool)
    (retryCount : Nat) : List ExecEffect :=
  if outcomes retryCount then
    [ExecEffect.started retryCount, ExecEffect.completed retryCount]
  else if _h : retryCount < p.maxRetries then
    [ExecEffect.started retryCount, ExecEffect.failedNotice retryCount,
      ExecEffect.retryScheduled (retryCount + 1) (retryDelay p (retryCount + 1))]
      ++ executeHandlerWithReliability p outcomes (retryCount + 1)
  else
    [ExecEffect.started retryCount, ExecEffect.failedNotice retryCount,
      ExecEffect.movedToDeadLetter retryCount]
termination_by p.maxRetries - retryCount

/-- Number of `FailedEvent` records constructed and appended to the
quarantine list along a trace (one per `movedToDeadLetter`). -/
def deadLetterCount (effects : List ExecEffect) : Nat :=
  effects.countP (fun e =>
    match e with
    | ExecEffect.movedToDeadLetter _ => true
    | _ => false)

/-- Number of retries scheduled (`scheduleRetry` calls) along a trace. -/
def retriesScheduled (effects : List ExecEffect) : Nat :=
  effects.countP (fun e =>
    match e with
    | ExecEffect.retryScheduled _ _ => true
    | _ => false)

/-- Number of handler failures (`onEventFailed` notifications) along a trace. -/
def failureCount (effects : List ExecEffect) : Nat :=
  effects.countP (fun e =>
    match e with
    | ExecEffect.failedNotice _ => true
    | _ => false)

/-- The delays of the scheduled retries along a trace, in order. -/
def scheduledDelays (effects : List ExecEffect) : List Nat :=
  effects.filterMap (fun e =>
    match e with
    | ExecEffect.retryScheduled _ d => some d
    | _ => none)

end Rel

namespace CB

/-- Iterated failing `execute` calls (the wrapped operation throws each
time), threading the breaker state; one call per timestamp in `times`. -/
def afterFailures (cfg : CircuitBreakerConfig) (times : List Nat)
    (cb : CircuitBreaker) : CircuitBreaker :=
  times.foldl (fun c t => (execute cfg c t false).2) cb

/-- Iterated succeeding `execute` calls, threading the breaker state. -/
def afterSuccesses (cfg : CircuitBreakerConfig) (times : List Nat)
    (cb : CircuitBreaker) : CircuitBreaker :=
  times.foldl (fun c t => (execute cfg c t true).2) cb

/-- Whether an `execute` outcome is a fail-fast rejection (the wrapped
operation was never invoked). -/
def isRejected : ExecOutcome → Bool
  | ExecOutcome.rejected _ => true
  | _ => false

end CB

/-- C2: with `failureThreshold = 3`, starting from the freshly constructed
breaker, the first two failed `execute` calls leave the state `CLOSED`; the
3rd consecutive failure transitions `CLOSED → OPEN` and sets
`nextAttemptTime = now + timeout`; and any `execute` call made while `OPEN`
before `nextAttemptTime` is reached returns the fast-fail rejection with
the breaker unchanged, never invoking the wrapped operation. -/
theorem C2_circuit_breaker_trip (cfg : CB.CircuitBreakerConfig)
    (h3 : cfg.failureThreshold = 3) (t1 t2 t3 now : Nat) (b : Bool)
    (hnow : now < t3 + cfg.timeout) :
    (CB.afterFailures cfg [t1] CB.CircuitBreaker.initial).state
        = CB.CircuitState.CLOSED ∧
    (CB.afterFailures cfg [t1, t2] CB.CircuitBreaker.initial).state
        = CB.CircuitState.CLOSED ∧
    (CB.afterFailures cfg [t1, t2, t3] CB.CircuitBreaker.initial).state
        = CB.CircuitState.OPEN ∧
    (CB.afterFailures cfg [t1, t2, t3] CB.CircuitBreaker.initial).nextAttemptTime
        = some (t3 + cfg.timeout) ∧
    CB.execute cfg (CB.afterFailures cfg [t1, t2, t3] CB.CircuitBreaker.initial)
        now b
      = (CB.ExecOutcome.rejected "Circuit Breaker is OPEN",
          CB.afterFailures cfg [t1, t2, t3] CB.CircuitBreaker.initial) := by
  obtain ⟨ft, tmo, mp, hm⟩ := cfg
  simp only at h3 hnow
  subst h3
  have hlt : ¬ now ≥ t3 + tmo := by omega
  simp [CB.afterFailures, CB.execute, CB.executeStep1, CB.onFailure, CB.trip,
    CB.shouldAttemptReset, CB.CircuitBreaker.initial, hlt]

/-- Witness for C2 at a concrete configuration and concrete times. -/
theorem C2_circuit_breaker_trip_witness :
    (CB.afterFailures ⟨3, 30000, 60000, 3⟩ [10] CB.CircuitBreaker.initial).state
        = CB.CircuitState.CLOSED ∧
    (CB.afterFailures ⟨3, 30000, 60000, 3⟩ [10, 20]
        CB.CircuitBreaker.initial).state = CB.CircuitState.CLOSED ∧
    (CB.afterFailures ⟨3, 30000, 60000, 3⟩ [10, 20, 30]
        CB.CircuitBreaker.initial).state = CB.CircuitState.OPEN ∧
    (CB.afterFailures ⟨3, 30000, 60000, 3⟩ [10, 20, 30]
        CB.CircuitBreaker.initial).nextAttemptTime = some (30 + 30000) ∧
    CB.execute ⟨3, 30000, 60000, 3⟩
        (CB.afterFailures ⟨3, 30000, 60000, 3⟩ [10, 20, 30]
          CB.CircuitBreaker.initial) 500 true
      = (CB.ExecOutcome.rejected "Circuit Breaker is OPEN",
          CB.afterFailures ⟨3, 30000, 60000, 3⟩ [10, 20, 30]
            CB.CircuitBreaker.initial) :=
  C2_circuit_breaker_trip ⟨3, 30000, 60000, 3⟩ rfl 10 20 30 500 true (by decide)

/-- C3: (a) once the timeout has elapsed (`now ≥ nextAttemptTime`), the
`OPEN`-state gate of the next `execute` call transitions the breaker to
`HALF_OPEN` with the probe counter reset to 0, and the call is not
rejected (the wrapped operation runs); (b) from `HALF_OPEN` with a fresh
probe counter, 3 consecutive successful calls transition to `CLOSED` with
`failures` reset to 0; (c) a single failed call in `HALF_OPEN` transitions
back to `OPEN`. -/
theorem C3_half_open_recovery (cfg : CB.CircuitBreakerConfig)
    (hmax : cfg.halfOpenMaxCalls = 3)
    (cbA : CB.CircuitBreaker) (nowA : Nat) (bA : Bool) (tA : Nat)
    (hA1 : cbA.state = CB.CircuitState.OPEN)
    (hA2 : cbA.nextAttemptTime = some tA) (hA3 : tA ≤ nowA)
    (cbB : CB.CircuitBreaker) (s1 s2 s3 : Nat)
    (hB1 : cbB.state = CB.CircuitState.HALF_OPEN) (hB2 : cbB.halfOpenCalls = 0)
    (cbC : CB.CircuitBreaker) (nowC : Nat)
    (hC1 : cbC.state = CB.CircuitState.HALF_OPEN)
    (hC2 : cbC.halfOpenCalls < cfg.halfOpenMaxCalls) :
    CB.executeStep1 cbA nowA
        = (none,
            { cbA with state := CB.CircuitState.HALF_OPEN, halfOpenCalls := 0 }) ∧
    CB.isRejected (CB.execute cfg cbA nowA bA).1 = false ∧
    (CB.afterSuccesses cfg [s1, s2, s3] cbB).state = CB.CircuitState.CLOSED ∧
    (CB.afterSuccesses cfg [s1, s2, s3] cbB).failures = 0 ∧
    (CB.execute cfg cbC nowC false).1 = CB.ExecOutcome.failed ∧
    (CB.execute cfg cbC nowC false).2.state = CB.CircuitState.OPEN ∧
    (CB.execute cfg cbC nowC false).2.nextAttemptTime
        = some (nowC + cfg.timeout) := by
  have hstep : CB.executeStep1 cbA nowA
      = (none,
          { cbA with state := CB.CircuitState.HALF_OPEN, halfOpenCalls := 0 }) := by
    simp [CB.executeStep1, hA1, CB.shouldAttemptReset, hA2, hA3]
  refine ⟨hstep, ?_, ?_, ?_, ?_, ?_, ?_⟩
  · cases bA <;>
      simp [CB.execute, hstep, hmax, CB.isRejected, CB.onSuccess, CB.onFailure,
        CB.trip, CB.reset]
  · simp [CB.afterSuccesses, CB.execute, CB.executeStep1, hB1, hB2, hmax,
      CB.onSuccess, CB.reset]
  · simp [CB.afterSuccesses, CB.execute, CB.executeStep1, hB1, hB2, hmax,
      CB.onSuccess, CB.reset]
  · simp [CB.execute, CB.executeStep1, hC1, Nat.not_le.mpr hC2, CB.onFailure,
      CB.trip, Nat.not_le_of_lt hC2]
  · simp [CB.execute, CB.executeStep1, hC1, CB.onFailure, CB.trip,
      Nat.not_le_of_lt hC2]
  · simp [CB.execute, CB.executeStep1, hC1, CB.onFailure, CB.trip,
      Nat.not_le_of_lt hC2]

/-- Witness for C3 at concrete breakers, configuration and times. -/
theorem C3_half_open_recovery_witness :
    CB.executeStep1 ⟨CB.CircuitState.OPEN, 3, 0, some 40, none, some 100, 0⟩ 150
        = (none,
            ⟨CB.CircuitState.HALF_OPEN, 3, 0, some 40, none, some 100, 0⟩) ∧
    CB.isRejected
        (CB.execute ⟨3, 30000, 60000, 3⟩
          ⟨CB.CircuitState.OPEN, 3, 0, some 40, none, some 100, 0⟩ 150 true).1
        = false ∧
    (CB.afterSuccesses ⟨3, 30000, 60000, 3⟩ [200, 210, 220]
        ⟨CB.CircuitState.HALF_OPEN, 3, 0, some 40, none, some 100, 0⟩).state
        = CB.CircuitState.CLOSED ∧
    (CB.afterSuccesses ⟨3, 30000, 60000, 3⟩ [200, 210, 220]
        ⟨CB.CircuitState.HALF_OPEN, 3, 0, some 40, none, some 100, 0⟩).failures
        = 0 ∧
    (CB.execute ⟨3, 30000, 60000, 3⟩
        ⟨CB.CircuitState.HALF_OPEN, 3, 0, some 40, none, some 100, 1⟩ 300
        false).1 = CB.ExecOutcome.failed ∧
    (CB.execute ⟨3, 30000, 60000, 3⟩
        ⟨CB.CircuitState.HALF_OPEN, 3, 0, some 40, none, some 100, 1⟩ 300
        false).2.state = CB.CircuitState.OPEN ∧
    (CB.execute ⟨3, 30000, 60000, 3⟩
        ⟨CB.CircuitState.HALF_OPEN, 3, 0, some 40, none, some 100, 1⟩ 300
        false).2.nextAttemptTime = some (300 + 30000) :=
  C3_half_open_recovery ⟨3, 30000, 60000, 3⟩ rfl
    ⟨CB.CircuitState.OPEN, 3, 0, some 40, none, some 100, 0⟩ 150 true 100
    rfl rfl (by decide)
    ⟨CB.CircuitState.HALF_OPEN, 3, 0, some 40, none, some 100, 0⟩ 200 210 220
    rfl rfl
    ⟨CB.CircuitState.HALF_OPEN, 3, 0, some 40, none, some 100, 1⟩ 300
    rfl (by decide)

/-- C1: under a retry policy with `maxRetries = 3`, a handler that fails on
the initial dispatch and on all 3 retries produces 4 failure notifications,
exactly one `moveToDeadLetter` (one `FailedEvent` constructed and appended
to the quarantine list), and exactly 3 scheduled retries — none after the
4th failure. -/
theorem C1_dead_letter_threshold (p : Rel.RetryPolicy)
    (hMax : p.maxRetries = 3) :
    Rel.failureCount
        (Rel.executeHandlerWithReliability p (fun _ => false) 0) = 4 ∧
    Rel.deadLetterCount
        (Rel.executeHandlerWithReliability p (fun _ => false) 0) = 1 ∧
    Rel.retriesScheduled
        (Rel.executeHandlerWithReliability p (fun _ => false) 0) = 3 := by
  obtain ⟨m, bo, ini, mx⟩ := p
  simp only at hMax
  subst hMax
  simp [Rel.executeHandlerWithReliability, Rel.deadLetterCount,
    Rel.retriesScheduled, Rel.failureCount]

/-- Witness for C1 at the default retry policy. -/
theorem C1_dead_letter_threshold_witness :
    Rel.failureCount
        (Rel.executeHandlerWithReliability Rel.defaultRetryPolicy
          (fun _ => false) 0) = 4 ∧
    Rel.deadLetterCount
        (Rel.executeHandlerWithReliability Rel.defaultRetryPolicy
          (fun _ => false) 0) = 1 ∧
    Rel.retriesScheduled
        (Rel.executeHandlerWithReliability Rel.defaultRetryPolicy
          (fun _ => false) 0) = 3 :=
  C1_dead_letter_threshold Rel.defaultRetryPolicy rfl

namespace Rel

/-- In the collapsed trace of an always-failing handler entered at retry
counter `k`, exactly the retries `k+1, …, maxRetries` are scheduled, in
order, the `(k+1+i)`-th with the delay `scheduleRetry` computes for it. -/
theorem scheduledDelays_allFail (p : RetryPolicy) (n k : Nat)
    (h : p.maxRetries - k = n) :
    scheduledDelays (executeHandlerWithReliability p (fun _ => false) k)
      = (List.range n).map (fun i => retryDelay p (k + 1 + i)) := by
  induction n generalizing k with
  | zero =>
    rw [executeHandlerWithReliability]
    have hk : ¬ k < p.maxRetries := by omega
    simp [hk, scheduledDelays]
  | succ n ih =>
    rw [executeHandlerWithReliability]
    have hk : k < p.maxRetries := by omega
    have hrec := ih (k + 1) (by omega)
    rw [List.range_succ_eq_map]
    simp only [scheduledDelays] at hrec ⊢
    simp [hk, hrec, List.map_map]
    intro a _
    have hi : k + 1 + 1 + a = k + 1 + (a + 1) := by omega
    rw [hi]

end Rel

/-- C4: for the policy `{initialDelay = 1000, backoffMultiplier = 2,
maxDelay = 30000}` (any retry budget `M`), the delays scheduled before the
successive retries of an always-failing handler are exactly
`min(1000 * 2^(n-1), 30000)` for the `n`-th retry, `n = 1, …, M`:
1000, 2000, 4000, …, capped at 30000. -/
theorem C4_backoff_monotonicity (M : Nat) :
    Rel.scheduledDelays
        (Rel.executeHandlerWithReliability ⟨M, 2, 1000, 30000⟩
          (fun _ => false) 0)
      = (List.range M).map (fun i => min (1000 * 2 ^ i) 30000) := by
  rw [Rel.scheduledDelays_allFail ⟨M, 2, 1000, 30000⟩ M 0 rfl]
  apply List.map_congr_left
  intro i _
  have hi : 0 + 1 + i - 1 = i := by omega
  simp [Rel.retryDelay, hi]

namespace Outbox

/-- `SerializedEvent` (`src/core/events/message-broker.ts`) — the wire
envelope.  `occurredAt` is a millisecond timestamp; `payload`
(`Record<string, any>`) is modelled as a string key-value list. -/
structure SerializedEvent where
  eventId : String
  eventType : String
  aggregateId : String
  aggregateType : String
  eventVersion : Nat
  occurredAt : Nat
  payload : List (String × String)
  deriving DecidableEq, Repr

/-- `OutboxEventProps` (`src/core/events/outbox-event.ts`).  The optional
`Date | null` fields are `Option Nat`; `string | null` is `Option String`.
`PrismaOutboxMapper` copies these fields verbatim between the entity and
the database row (its surrogate-id column is not modelled; `eventId` is
the unique key all the operations address rows by), so this type also
serves as the persisted outbox row. -/
structure OutboxEventProps where
  eventId : String
  eventType : String
  aggregateId : String
  aggregateType : String
  eventVersion : Nat
  occurredAt : Nat
  payload : List (String × String)
  processedAt : Option Nat
  published : Bool
  attempts : Nat
  lastAttemptAt : Option Nat
  errorMessage : Option String
  deriving DecidableEq, Repr

/-- `OutboxEvent.create`: a freshly staged event has `published = false`,
`attempts = 0` and no `processedAt`/`lastAttemptAt`/`errorMessage`. -/
def create (se : SerializedEvent) : OutboxEventProps :=
  { eventId := se.eventId
    eventType := se.eventType
    aggregateId := se.aggregateId
    aggregateType := se.aggregateType
    eventVersion := se.eventVersion
    occurredAt := se.occurredAt
    payload := se.payload
    processedAt := none
    published := false
    attempts := 0
    lastAttemptAt := none
    errorMessage := none }

/-- `OutboxEvent.markAsPublished`: sets `published = true` and
`processedAt = new Date()` together. -/
def markAsPublished (e : OutboxEventProps) (now : Nat) : OutboxEventProps :=
  { e with published := true, processedAt := some now }

/-- `OutboxEvent.incrementAttempts`. -/
def incrementAttempts (e : OutboxEventProps) (now : Nat)
    (errorMessage : Option String) : OutboxEventProps :=
  { e with
    attempts := e.attempts + 1
    lastAttemptAt := some now
    errorMessage := errorMessage }

/-- `OutboxEvent.toSerializedEvent`. -/
def toSerializedEvent (e : OutboxEventProps) : SerializedEvent :=
  { eventId := e.eventId
    eventType := e.eventType
    aggregateId := e.aggregateId
    aggregateType := e.aggregateType
    eventVersion := e.eventVersion
    occurredAt := e.occurredAt
    payload := e.payload }

/-- Prisma `createMany` with `skipDuplicates: true` under the unique
constraint on `eventId` (ON CONFLICT DO NOTHING): each row of the batch is
inserted unless a row with its `eventId` is already present — which also
drops later batch rows duplicating an earlier one. -/
def createManySkipDuplicates (table : List OutboxEventProps)
    (rows : List OutboxEventProps) : List OutboxEventProps :=
  rows.foldl
    (fun t r => if t.any (fun x => x.eventId = r.eventId) then t else t ++ [r])
    table

/-- `PrismaOutboxRepository.saveMany` (empty batches return without a
database call; the mapper is a per-field copy). -/
def saveMany (table : List OutboxEventProps)
    (events : List OutboxEventProps) : List OutboxEventProps :=
  if events.length = 0 then table else createManySkipDuplicates table events

/-- Number of stored rows carrying a given `eventId`. -/
def rowsWithId (table : List OutboxEventProps) (eid : String) : Nat :=
  table.countP (fun r => r.eventId = eid)

/-- `PrismaOutboxRepository.markAsPublished`: point update by the unique
`eventId`, setting `published = true` and `processedAt = new Date()`. -/
def repoMarkAsPublished (table : List OutboxEventProps) (eid : String)
    (now : Nat) : List OutboxEventProps :=
  table.map (fun r =>
    if r.eventId = eid then
      { r with published := true, processedAt := some now }
    else r)

/-- `PrismaOutboxRepository.incrementAttempts`: point update by `eventId`,
incrementing `attempts` and recording `lastAttemptAt`/`errorMessage`. -/
def repoIncrementAttempts (table : List OutboxEventProps) (eid : String)
    (now : Nat) (errorMessage : Option String) : List OutboxEventProps :=
  table.map (fun r =>
    if r.eventId = eid then
      { r with
        attempts := r.attempts + 1
        lastAttemptAt := some now
        errorMessage := errorMessage }
    else r)

/-- The invariant of §3: `published == true ⇒ processedAt != null`. -/
def publishedInv (e : OutboxEventProps) : Prop :=
  e.published = true → e.processedAt ≠ none

instance (e : OutboxEventProps) : Decidable (publishedInv e) := by
  unfold publishedInv; infer_instance

/-- The invariant holds of every stored row. -/
def tableInv (table : List OutboxEventProps) : Prop :=
  ∀ r ∈ table, publishedInv r

instance (table : List OutboxEventProps) : Decidable (tableInv table) :=
  List.decidableBAll _ table

end Outbox

namespace Outbox

/-- Unfolding of `createManySkipDuplicates` on a batch head. -/
theorem createMany_cons (r : OutboxEventProps) (rows : List OutboxEventProps)
    (tbl : List OutboxEventProps) :
    createManySkipDuplicates tbl (r :: rows)
      = createManySkipDuplicates
          (if tbl.any (fun x => x.eventId = r.eventId) then tbl else tbl ++ [r])
          rows :=
  rfl

/-- Once exactly one row carries `eid`, `createMany … skipDuplicates` keeps
it at exactly one: batch rows with that id hit the unique key and are
skipped, others do not affect the count. -/
theorem rowsWithId_createMany_of_one (eid : String)
    (rows : List OutboxEventProps) :
    ∀ t : List OutboxEventProps, rowsWithId t eid = 1 →
      rowsWithId (createManySkipDuplicates t rows) eid = 1 := by
  induction rows with
  | nil =>
    intro t h
    simpa [createManySkipDuplicates] using h
  | cons r rows ih =>
    intro t h
    rw [createMany_cons r rows t]
    by_cases hr : t.any (fun x => x.eventId = r.eventId) = true
    · rw [if_pos hr]
      exact ih t h
    · rw [if_neg hr]
      have hne : ¬ (r.eventId = eid) := by
        intro heq
        apply hr
        have hpos : 0 < List.countP (fun x => decide (x.eventId = eid)) t := by
          rw [rowsWithId] at h
          omega
        rw [List.countP_pos_iff] at hpos
        obtain ⟨x, hx, hxe⟩ := hpos
        rw [List.any_eq_true]
        refine ⟨x, hx, ?_⟩
        simp only [decide_eq_true_eq] at hxe ⊢
        rw [heq]
        exact hxe
      have h1 : rowsWithId (t ++ [r]) eid = 1 := by
        rw [rowsWithId] at h
        rw [rowsWithId, List.countP_append]
        simp [List.countP_cons, hne, h]
      exact ih (t ++ [r]) h1

/-- If no row carries `eid` yet and some batch row does, `createMany …
skipDuplicates` stores exactly one row with `eid`. -/
theorem rowsWithId_createMany_of_zero (eid : String)
    (rows : List OutboxEventProps) :
    ∀ t : List OutboxEventProps, rowsWithId t eid = 0 →
      eid ∈ rows.map OutboxEventProps.eventId →
      rowsWithId (createManySkipDuplicates t rows) eid = 1 := by
  induction rows with
  | nil =>
    intro t h hin
    simp at hin
  | cons r rows ih =>
    intro t h hin
    rw [createMany_cons r rows t]
    by_cases hr : r.eventId = eid
    · have hany : t.any (fun x => x.eventId = r.eventId) = false := by
        rw [List.any_eq_false]
        intro x hx
        have hx0 := List.countP_eq_zero.mp h x hx
        simp only [decide_eq_true_eq] at hx0 ⊢
        rw [hr]
        exact hx0
      rw [hany]
      simp only [Bool.false_eq_true, if_false]
      have h1 : rowsWithId (t ++ [r]) eid = 1 := by
        rw [rowsWithId] at h
        rw [rowsWithId, List.countP_append]
        simp [List.countP_cons, hr, h]
      exact rowsWithId_createMany_of_one eid rows (t ++ [r]) h1
    · have hin' : eid ∈ rows.map OutboxEventProps.eventId := by
        rcases List.mem_map.mp hin with ⟨x, hx, hxe⟩
        rcases List.mem_cons.mp hx with hxr | hxs
        · exact absurd (hxr ▸ hxe) hr
        · exact List.mem_map.mpr ⟨x, hxs, hxe⟩
      by_cases hany : t.any (fun x => x.eventId = r.eventId) = true
      · rw [if_pos hany]
        exact ih t h hin'
      · rw [if_neg hany]
        have h0 : rowsWithId (t ++ [r]) eid = 0 := by
          rw [rowsWithId] at h
          rw [rowsWithId, List.countP_append]
          simp [List.countP_cons, hr, h]
        exact ih (t ++ [r]) h0 hin'

end Outbox

/-- C5: staging is idempotent per `eventId`.  Starting from a store with no
row for `eid`, if the staged batch contains (one or more) events with
id `eid`, then after calling `saveMany` with that batch twice the store
holds exactly one row for `eid`: duplicates inside the batch and across
the two calls are silently skipped. -/
theorem C5_idempotent_staging (table events : List Outbox.OutboxEventProps)
    (eid : String) (h0 : Outbox.rowsWithId table eid = 0)
    (hin : eid ∈ events.map Outbox.OutboxEventProps.eventId) :
    Outbox.rowsWithId (Outbox.saveMany (Outbox.saveMany table events) events)
      eid = 1 := by
  have hne : ¬ (events.length = 0) := by
    intro hlen
    rw [List.length_eq_zero] at hlen
    subst hlen
    simp at hin
  rw [Outbox.saveMany, if_neg hne, Outbox.saveMany, if_neg hne]
  exact Outbox.rowsWithId_createMany_of_one eid events _
    (Outbox.rowsWithId_createMany_of_zero eid events table h0 hin)

/-- Witness for C5: a batch holding two events that share `eventId` "e1",
saved twice into an empty store, yields exactly one row for "e1". -/
theorem C5_idempotent_staging_witness :
    Outbox.rowsWithId
      (Outbox.saveMany
        (Outbox.saveMany []
          [⟨"e1", "AnswerCreatedEvent", "agg-1", "Answer", 1, 100, [], none,
              false, 0, none, none⟩,
            ⟨"e1", "AnswerCreatedEvent", "agg-1", "Answer", 1, 100, [], none,
              false, 0, none, none⟩])
        [⟨"e1", "AnswerCreatedEvent", "agg-1", "Answer", 1, 100, [], none,
            false, 0, none, none⟩,
          ⟨"e1", "AnswerCreatedEvent", "agg-1", "Answer", 1, 100, [], none,
            false, 0, none, none⟩])
      "e1" = 1 :=
  C5_idempotent_staging []
    [⟨"e1", "AnswerCreatedEvent", "agg-1", "Answer", 1, 100, [], none,
        false, 0, none, none⟩,
      ⟨"e1", "AnswerCreatedEvent", "agg-1", "Answer", 1, 100, [], none,
        false, 0, none, none⟩]
    "e1" (by decide) (by decide)

/-- C9: every operation touching an Outbox Event preserves
`published = true ⇒ processedAt ≠ null`: `create` starts unpublished with
no `processedAt`; the entity's `markAsPublished` sets `processedAt`
together with `published`; the entity's `incrementAttempts` touches
neither; and the repository's `markAsPublished` / `incrementAttempts`
point updates preserve the invariant across the whole store. -/
theorem C9_published_implies_processed (se : Outbox.SerializedEvent)
    (e : Outbox.OutboxEventProps) (now : Nat) (msg : Option String)
    (table : List Outbox.OutboxEventProps) (eid : String)
    (he : Outbox.publishedInv e) (ht : Outbox.tableInv table) :
    Outbox.publishedInv (Outbox.create se) ∧
    (Outbox.create se).published = false ∧
    Outbox.publishedInv (Outbox.markAsPublished e now) ∧
    (Outbox.markAsPublished e now).processedAt = some now ∧
    Outbox.publishedInv (Outbox.incrementAttempts e now msg) ∧
    Outbox.tableInv (Outbox.repoMarkAsPublished table eid now) ∧
    Outbox.tableInv (Outbox.repoIncrementAttempts table eid now msg) := by
  refine ⟨?_, rfl, ?_, rfl, ?_, ?_, ?_⟩
  · intro h
    simp [Outbox.create] at h
  · intro _
    simp [Outbox.markAsPublished]
  · intro h
    simp only [Outbox.incrementAttempts] at h ⊢
    exact he h
  · intro r hr
    rcases List.mem_map.mp hr with ⟨x, hx, hxe⟩
    by_cases hid : x.eventId = eid
    · simp only [hid, if_pos] at hxe
      subst hxe
      intro _
      simp
    · simp only [hid, if_neg, if_false] at hxe
      subst hxe
      exact ht x hx
  · intro r hr
    rcases List.mem_map.mp hr with ⟨x, hx, hxe⟩
    by_cases hid : x.eventId = eid
    · simp only [hid, if_pos] at hxe
      subst hxe
      intro h
      exact ht x hx h
    · simp only [hid, if_neg, if_false] at hxe
      subst hxe
      exact ht x hx

/-- Witness for C9 at a concrete event, entity and two-row store. -/
theorem C9_published_implies_processed_witness :
    Outbox.publishedInv
        (Outbox.create ⟨"e9", "AnswerCreatedEvent", "a", "Answer", 1, 7, []⟩) ∧
    (Outbox.create
        ⟨"e9", "AnswerCreatedEvent", "a", "Answer", 1, 7, []⟩).published
        = false ∧
    Outbox.publishedInv
        (Outbox.markAsPublished
          ⟨"e9", "AnswerCreatedEvent", "a", "Answer", 1, 7, [], none, false,
            0, none, none⟩ 50) ∧
    (Outbox.markAsPublished
        ⟨"e9", "AnswerCreatedEvent", "a", "Answer", 1, 7, [], none, false,
          0, none, none⟩ 50).processedAt = some 50 ∧
    Outbox.publishedInv
        (Outbox.incrementAttempts
          ⟨"e9", "AnswerCreatedEvent", "a", "Answer", 1, 7, [], none, false,
            0, none, none⟩ 50 (some "boom")) ∧
    Outbox.tableInv
        (Outbox.repoMarkAsPublished
          [⟨"e9", "AnswerCreatedEvent", "a", "Answer", 1, 7, [], none, false,
              0, none, none⟩,
            ⟨"e8", "AnswerCreatedEvent", "a", "Answer", 1, 6, [], some 9,
              true, 1, none, none⟩] "e9" 50) ∧
    Outbox.tableInv
        (Outbox.repoIncrementAttempts
          [⟨"e9", "AnswerCreatedEvent", "a", "Answer", 1, 7, [], none, false,
              0, none, none⟩,
            ⟨"e8", "AnswerCreatedEvent", "a", "Answer", 1, 6, [], some 9,
              true, 1, none, none⟩] "e9" 50 (some "boom")) :=
  C9_published_implies_processed
    ⟨"e9", "AnswerCreatedEvent", "a", "Answer", 1, 7, []⟩
    ⟨"e9", "AnswerCreatedEvent", "a", "Answer", 1, 7, [], none, false, 0,
      none, none⟩
    50 (some "boom")
    [⟨"e9", "AnswerCreatedEvent", "a", "Answer", 1, 7, [], none, false, 0,
        none, none⟩,
      ⟨"e8", "AnswerCreatedEvent", "a", "Answer", 1, 6, [], some 9, true, 1,
        none, none⟩]
    "e9" (by decide) (by decide)

namespace Pub

open Outbox

/-- The queue topology hard-coded in `RabbitMQMessageBroker`'s constructor
(`src/infra/messaging/rabbitmq/rabbitmq-message-broker.ts`): only
`AnswerCreatedEvent` and `QuestionBestAnswerChosenEvent` have a queue
configuration; the value returned is the routing key. -/
def queueRoutingKey (eventType : String) : Option String :=
  if eventType = "AnswerCreatedEvent" then some "answer.created"
  else if eventType = "QuestionBestAnswerChosenEvent" then
    some "question.best_answer_chosen"
  else none

/-- `RabbitMQMessageBroker.publish`.  The broker is modelled by the list of
envelopes actually written to the channel; `channelOk` is whether
`this.channel` is non-null, `wireOk` abstracts the boolean result of
`channel.publish`.  With no queue configuration for the event type the
method logs a warning and returns successfully without writing anything. -/
def rabbitPublish (channelOk wireOk : Bool) (sent : List SerializedEvent)
    (ev : SerializedEvent) : Except String (List SerializedEvent) :=
  if channelOk = false then
    Except.error "RabbitMQ channel not available"
  else
    match queueRoutingKey ev.eventType with
    | none => Except.ok sent
    | some _ =>
      if wireOk then Except.ok (sent ++ [ev])
      else Except.error "Failed to publish message to RabbitMQ"

/-- One iteration of the `for` loop in
`EventPublisherService.processUnpublishedEvents`
(`src/infra/messaging/event-publisher.service.ts`): publish the serialized
event; on success mark it published, on failure increment its attempts with
the error message and continue.  `σ` is the abstract `MessageBroker`
state. -/
def sweepStep {σ : Type} (publish : σ → SerializedEvent → Except String σ)
    (now : Nat) (acc : σ × List OutboxEventProps) (ev : OutboxEventProps) :
    σ × List OutboxEventProps :=
  match publish acc.1 (toSerializedEvent ev) with
  | Except.ok s => (s, repoMarkAsPublished acc.2 ev.eventId now)
  | Except.error msg =>
      (acc.1, repoIncrementAttempts acc.2 ev.eventId now (some msg))

/-- The batch loop of `processUnpublishedEvents` over the fetched
unpublished events (the cron guard `isProcessing` and the surrounding
logging are process-level and carry no data flow). -/
def processUnpublishedEvents {σ : Type}
    (publish : σ → SerializedEvent → Except String σ) (now : Nat)
    (batch : List OutboxEventProps) (broker : σ)
    (table : List OutboxEventProps) : σ × List OutboxEventProps :=
  batch.foldl (sweepStep publish now) (broker, table)

/-- `EventPublisherService.processEventsManually`: the success path is the
same as the sweep's, but the `catch` block rethrows the publish error, so
the loop aborts at the first failing event.  Result: `none` when the whole
batch was processed, `some msg` when the error `msg` was rethrown; the
broker state and table reflect the updates applied before the failure. -/
def processEventsManually {σ : Type}
    (publish : σ → SerializedEvent → Except String σ) (now : Nat) :
    List OutboxEventProps → σ → List OutboxEventProps →
      Option String × σ × List OutboxEventProps
  | [], s, t => (none, s, t)
  | ev :: rest, s, t =>
    match publish s (toSerializedEvent ev) with
    | Except.ok s1 =>
        processEventsManually publish now rest s1
          (repoMarkAsPublished t ev.eventId now)
    | Except.error msg => (some msg, s, t)

/-- A broker stub for the C7 counterexample: publishing the envelope with
`eventId = "e1"` fails, everything else is appended to the sent list. -/
def pubStubC7 (s : List SerializedEvent) (ev : SerializedEvent) :
    Except String (List SerializedEvent) :=
  if ev.eventId = "e1" then Except.error "broker down" else Except.ok (s ++ [ev])

/-- First unpublished row of the C7 counterexample (publish fails on it). -/
def rowE1 : OutboxEventProps :=
  ⟨"e1", "AnswerCreatedEvent", "a1", "Answer", 1, 10, [], none, false, 0,
    none, none⟩

/-- Second unpublished row of the C7 counterexample (publish succeeds). -/
def rowE2 : OutboxEventProps :=
  ⟨"e2", "AnswerCreatedEvent", "a2", "Answer", 1, 20, [], none, false, 0,
    none, none⟩

end Pub

/-- C7 counterexample: the manual trigger does NOT apply the sweep's
per-event logic.  With two unpublished rows where the broker rejects the
first and accepts the second, the manual trigger's result differs from
completing with the sweep's final state: it rethrows "broker down" after
the first event, incrementing nothing and never reaching the second. -/
theorem C7_manual_trigger_counterexample :
    Pub.processEventsManually Pub.pubStubC7 99 [Pub.rowE1, Pub.rowE2]
        ([] : List Outbox.SerializedEvent) [Pub.rowE1, Pub.rowE2]
      ≠ (none,
          Pub.processUnpublishedEvents Pub.pubStubC7 99 [Pub.rowE1, Pub.rowE2]
            ([] : List Outbox.SerializedEvent) [Pub.rowE1, Pub.rowE2]) := by
  decide

/-- C7 amended: only the periodic sweep isolates per-event failures — it
increments the failing event's attempts, records the error message and
continues, publishing the rest of the batch; the manual trigger shares the
success path but rethrows the first publish failure, leaving the failing
event's attempts unincremented, the error unrecorded, and the remaining
events of the batch unprocessed. -/
theorem C7_manual_trigger_aborts {σ : Type}
    (publish : σ → Outbox.SerializedEvent → Except String σ) (now : Nat)
    (e1 e2 : Outbox.OutboxEventProps) (s0 s1 : σ)
    (table : List Outbox.OutboxEventProps) (msg : String)
    (h1 : publish s0 (Outbox.toSerializedEvent e1) = Except.error msg)
    (h2 : publish s0 (Outbox.toSerializedEvent e2) = Except.ok s1) :
    Pub.processEventsManually publish now [e1, e2] s0 table
        = (some msg, s0, table) ∧
    Pub.processUnpublishedEvents publish now [e1, e2] s0 table
        = (s1,
            Outbox.repoMarkAsPublished
              (Outbox.repoIncrementAttempts table e1.eventId now (some msg))
              e2.eventId now) := by
  constructor
  · simp [Pub.processEventsManually, h1]
  · simp [Pub.processUnpublishedEvents, Pub.sweepStep, h1, h2]

/-- Witness for the amended C7 at the concrete two-row batch. -/
theorem C7_manual_trigger_aborts_witness :
    Pub.processEventsManually Pub.pubStubC7 99 [Pub.rowE1, Pub.rowE2]
        ([] : List Outbox.SerializedEvent) [Pub.rowE1, Pub.rowE2]
        = (some "broker down", [], [Pub.rowE1, Pub.rowE2]) ∧
    Pub.processUnpublishedEvents Pub.pubStubC7 99 [Pub.rowE1, Pub.rowE2]
        ([] : List Outbox.SerializedEvent) [Pub.rowE1, Pub.rowE2]
        = ([Outbox.toSerializedEvent Pub.rowE2],
            Outbox.repoMarkAsPublished
              (Outbox.repoIncrementAttempts [Pub.rowE1, Pub.rowE2]
                Pub.rowE1.eventId 99 (some "broker down"))
              Pub.rowE2.eventId 99) :=
  C7_manual_trigger_aborts Pub.pubStubC7 99 Pub.rowE1 Pub.rowE2 []
    [Outbox.toSerializedEvent Pub.rowE2] [Pub.rowE1, Pub.rowE2] "broker down"
    (by simp [Pub.pubStubC7, Pub.rowE1, Outbox.toSerializedEvent])
    (by simp [Pub.pubStubC7, Pub.rowE2, Outbox.toSerializedEvent])

/-- C10: an envelope whose `eventType` has no queue configuration makes
`RabbitMQMessageBroker.publish` resolve successfully without writing
anything to the channel (warning only), so the publisher sweep over such
an event marks the outbox row as published while the broker's sent list is
unchanged — the event was never delivered. -/
theorem C10_unrouted_event_marked_published (ev : Outbox.OutboxEventProps)
    (table : List Outbox.OutboxEventProps)
    (sent : List Outbox.SerializedEvent) (now : Nat) (wireOk : Bool)
    (hq : Pub.queueRoutingKey ev.eventType = none) :
    Pub.rabbitPublish true wireOk sent (Outbox.toSerializedEvent ev)
        = Except.ok sent ∧
    Pub.processUnpublishedEvents (Pub.rabbitPublish true wireOk) now [ev]
        sent table
      = (sent, Outbox.repoMarkAsPublished table ev.eventId now) := by
  have hpub : Pub.rabbitPublish true wireOk sent (Outbox.toSerializedEvent ev)
      = Except.ok sent := by
    simp [Pub.rabbitPublish, Outbox.toSerializedEvent, hq]
  exact ⟨hpub, by simp [Pub.processUnpublishedEvents, Pub.sweepStep, hpub]⟩

/-- Witness for C10: a `QuestionCommentCreatedEvent` row (no queue
configured) is marked published by the sweep while nothing reaches the
broker. -/
theorem C10_unrouted_event_marked_published_witness :
    Pub.rabbitPublish true true []
        (Outbox.toSerializedEvent
          ⟨"e3", "QuestionCommentCreatedEvent", "a3", "Question", 1, 30, [],
            none, false, 0, none, none⟩)
        = Except.ok [] ∧
    Pub.processUnpublishedEvents (Pub.rabbitPublish true true) 99
        [⟨"e3", "QuestionCommentCreatedEvent", "a3", "Question", 1, 30, [],
            none, false, 0, none, none⟩]
        []
        [⟨"e3", "QuestionCommentCreatedEvent", "a3", "Question", 1, 30, [],
            none, false, 0, none, none⟩]
      = ([],
          Outbox.repoMarkAsPublished
            [⟨"e3", "QuestionCommentCreatedEvent", "a3", "Question", 1, 30,
                [], none, false, 0, none, none⟩]
            "e3" 99) :=
  C10_unrouted_event_marked_published
    ⟨"e3", "QuestionCommentCreatedEvent", "a3", "Question", 1, 30, [], none,
      false, 0, none, none⟩
    [⟨"e3", "QuestionCommentCreatedEvent", "a3", "Question", 1, 30, [], none,
        false, 0, none, none⟩]
    [] 99 true (by decide)

namespace Rel

/-- A domain event as `DomainEventsWithReliability` observes it: the
constructor name (`event.constructor.name`) used for handler lookup, and
`getAggregateId().toString()` used as the `FailedEvent`'s `eventId`. -/
structure DomainEvent where
  typeName : String
  aggregateId : String
  deriving DecidableEq, Repr

/-- One entry of `handlersMap[eventClassName]` (`register`): handler
callback, `name`, retry policy.  `succeeds` is the deterministic outcome of
invoking the stored callback. -/
structure RegisteredHandler where
  name : String
  succeeds : Bool
  retryPolicy : RetryPolicy
  deriving DecidableEq, Repr

/-- A `FailedEvent` quarantine record (`domain-events-reliability.ts`).
The JS `Error` object and the `failedAt`/`lastRetryAt`/`nextRetryAt`
wall-clock stamps are not modelled — they play no part in list
membership. -/
structure FailedEvent where
  eventId : String
  eventType : String
  eventData : DomainEvent
  handlerName : String
  retryCount : Nat
  deriving DecidableEq, Repr

/-- A retry timer armed by `scheduleRetry` whose callback has not yet
fired. -/
structure PendingRetry where
  event : DomainEvent
  eventType : String
  handlerName : String
  retryCount : Nat
  delayMs : Nat
  deriving DecidableEq, Repr

/-- The mutable static state of `DomainEventsWithReliability` that dispatch
and reprocessing touch: the quarantine list and the armed retry timers. -/
structure RelState where
  failedEvents : List FailedEvent
  pendingRetries : List PendingRetry
  deriving DecidableEq, Repr

/-- `moveToDeadLetter`: construct the `FailedEvent` (its `eventId` is the
event's aggregate id) and push it onto `failedEvents`. -/
def moveToDeadLetter (ev : DomainEvent) (handlerName : String)
    (retryCount : Nat) (st : RelState) : RelState :=
  { st with
    failedEvents := st.failedEvents ++
      [⟨ev.aggregateId, ev.typeName, ev, handlerName, retryCount⟩] }

/-- The synchronously awaited part of `executeHandlerWithReliability` at
retry counter `rc`: the promise `dispatchEvent` awaits resolves once the
handler has succeeded, or — on failure — once `scheduleRetry` has armed a
timer (`rc < maxRetries`) or `moveToDeadLetter` has pushed the quarantine
record.  The armed timer's callback runs in a later macrotask, not here. -/
def attemptHandler (ev : DomainEvent) (h : RegisteredHandler) (rc : Nat)
    (st : RelState) : RelState :=
  if h.succeeds then st
  else if rc < h.retryPolicy.maxRetries then
    { st with
      pendingRetries := st.pendingRetries ++
        [⟨ev, ev.typeName, h.name, rc + 1, retryDelay h.retryPolicy (rc + 1)⟩] }
  else
    moveToDeadLetter ev h.name rc st

/-- `this.handlersMap[eventType] || []`. -/
def lookupHandlers (handlersMap : List (String × List RegisteredHandler))
    (ty : String) : List RegisteredHandler :=
  match handlersMap.find? (fun e => e.1 = ty) with
  | some e => e.2
  | none => []

/-- `dispatchEvent`: run `executeHandlerWithReliability` for every
registered handler of the event's type and await `Promise.allSettled`.
`allSettled` never rejects, so `dispatchEvent` always resolves, whatever
the handlers do — hence the return type has no error case. -/
def dispatchEvent (handlersMap : List (String × List RegisteredHandler))
    (ev : DomainEvent) (st : RelState) : RelState :=
  (lookupHandlers handlersMap ev.typeName).foldl
    (fun acc h => attemptHandler ev h 0 acc) st

/-- `indexOf` followed by `splice(index, 1)`: drop the first occurrence. -/
def removeFirst : List FailedEvent → FailedEvent → List FailedEvent
  | [], _ => []
  | x :: xs, fe => if x = fe then xs else removeFirst xs fe |> (x :: ·)

/-- `reprocessFailedEvents(eventIds?)`: select the quarantined records (all
of them, or those whose `eventId` is listed) and, for each, re-dispatch its
`eventData` through `dispatchEvent` and remove the record from
`failedEvents`.  The source wraps the dispatch in `try/catch` intending to
keep the record on failure, but `dispatchEvent` never rejects
(`Promise.allSettled`), so the `catch` is unreachable and the removal runs
unconditionally. -/
def reprocessFailedEvents
    (handlersMap : List (String × List RegisteredHandler))
    (eventIds : Option (List String)) (st : RelState) : RelState :=
  let eventsToReprocess : List FailedEvent :=
    match eventIds with
    | some ids => st.failedEvents.filter (fun e => ids.contains e.eventId)
    | none => st.failedEvents
  eventsToReprocess.foldl
    (fun acc fe =>
      let acc1 := dispatchEvent handlersMap fe.eventData acc
      { acc1 with failedEvents := removeFirst acc1.failedEvents fe })
    st

end Rel

/-- C6 (code bug): reprocessing a quarantined event whose handler still
fails nevertheless removes the record from the quarantine list, because
`dispatchEvent` (via `Promise.allSettled`) never rejects and the removal
therefore runs unconditionally — the failed re-dispatch merely arms a new
first-retry timer.  The claim (and the source's own comment "Remove da
lista de falhados se sucesso") requires the record to stay quarantined. -/
theorem C6_reprocess_removes_despite_failure :
    Rel.reprocessFailedEvents
        [("AnswerCreatedEvent",
          [⟨"SendNotificationHandler", false, Rel.defaultRetryPolicy⟩])]
        none
        ⟨[⟨"agg-1", "AnswerCreatedEvent", ⟨"AnswerCreatedEvent", "agg-1"⟩,
            "SendNotificationHandler", 3⟩], []⟩
      = ⟨[],
          [⟨⟨"AnswerCreatedEvent", "agg-1"⟩, "AnswerCreatedEvent",
              "SendNotificationHandler", 1, 1000⟩]⟩ := by
  decide

namespace Bus

/-- A domain event as `DomainEventsWithOutbox` observes it: the constructor
name used for handler lookup (`event.constructor.name`). -/
structure DomainEvent where
  typeName : String
  deriving DecidableEq, Repr

/-- A registered `DomainEventCallback`; `name` identifies the callback in
the invocation log, and `throwsWith = some msg` models the synchronous call
throwing an `Error` with message `msg` (`none`: it returns normally). -/
structure LocalHandler where
  name : String
  throwsWith : Option String
  deriving DecidableEq, Repr

/-- An `AggregateRoot` as the bus sees it: identity plus its pending
`domainEvents`. -/
structure Aggregate where
  id : Nat
  domainEvents : List DomainEvent
  deriving DecidableEq, Repr

/-- The static state of `DomainEventsWithOutbox` in default local mode
(`useOutbox = false`), plus `invoked`: an observation log of which
callbacks were actually invoked, in order. -/
structure BusState where
  handlersMap : List (String × List LocalHandler)
  markedAggregates : List Aggregate
  shouldRun : Bool
  invoked : List String
  deriving DecidableEq, Repr

/-- The `for (const handler of handlers)` loop of `dispatchLocal`: each
callback runs in registration order and is logged; there is no try/catch,
so a synchronous throw propagates at once and later callbacks do not
run. -/
def runHandlers : List LocalHandler → List String → Option String × List String
  | [], log => (none, log)
  | h :: hs, log =>
    match h.throwsWith with
    | none => runHandlers hs (log ++ [h.name])
    | some msg => (some msg, log ++ [h.name])

/-- `dispatchLocal`: a no-op when the kill switch `shouldRun` is off or no
handler list is registered under the event's class name; otherwise it runs
the registered callbacks.  The returned `Option String` is the propagated
exception, if any. -/
def dispatchLocal (st : BusState) (ev : DomainEvent) :
    Option String × BusState :=
  if st.shouldRun = false then (none, st)
  else
    match st.handlersMap.find? (fun e => e.1 = ev.typeName) with
    | none => (none, st)
    | some entry =>
      match runHandlers entry.2 st.invoked with
      | (err, log) => (err, { st with invoked := log })

/-- `dispatchAggregateEvents` in default local mode:
`events.forEach((event) => this.dispatchLocal(event))`.  An exception
thrown inside the `forEach` callback propagates and aborts the remaining
iterations. -/
def dispatchEvents : List DomainEvent → BusState → Option String × BusState
  | [], st => (none, st)
  | ev :: rest, st =>
    match dispatchLocal st ev with
    | (none, st1) => dispatchEvents rest st1
    | (some msg, st1) => (some msg, st1)

/-- `findMarkedAggregateByID`: lookup in the pending set by identity. -/
def findMarkedAggregateByID (st : BusState) (id : Nat) : Option Aggregate :=
  st.markedAggregates.find? (fun a => a.id = id)

/-- `removeAggregateFromMarkedDispatchList`: `findIndex` on entity equality
(same identity) followed by `splice(index, 1)`. -/
def removeAggregateFromMarked : List Aggregate → Nat → List Aggregate
  | [], _ => []
  | a :: rest, i =>
    if a.id = i then rest else a :: removeAggregateFromMarked rest i

/-- `dispatchEventsForAggregate(id)`: find the pending aggregate and
dispatch its events; only after that completes normally does the source run
`aggregate.clearEvents()` (emptying the removed aggregate's own list) and
remove it from the pending set.  A handler exception propagates to the
caller before either cleanup step runs, leaving the pending set — and the
aggregate's events — untouched. -/
def dispatchEventsForAggregate (id : Nat) (st : BusState) :
    Option String × BusState :=
  match findMarkedAggregateByID st id with
  | none => (none, st)
  | some aggregate =>
    match dispatchEvents aggregate.domainEvents st with
    | (none, st1) =>
      (none,
        { st1 with
          markedAggregates :=
            removeAggregateFromMarked st1.markedAggregates id })
    | (some msg, st1) => (some msg, st1)

/-- The bus state of the C8 counterexample: one pending aggregate with one
event, whose type has two registered callbacks — the first throws, the
second would succeed. -/
def stC8 : BusState :=
  { handlersMap :=
      [("QuestionBestAnswerChosenEvent",
        [⟨"h1", some "boom"⟩, ⟨"h2", none⟩])]
    markedAggregates := [⟨1, [⟨"QuestionBestAnswerChosenEvent"⟩]⟩]
    shouldRun := true
    invoked := [] }

end Bus

/-- C8 counterexample: flushing aggregate 1 of `stC8` does NOT swallow the
first callback's exception, does NOT invoke the second callback, and does
NOT clear the pending set — refuting the claim's asserted outcome (no
error, both handlers invoked, aggregate removed) at this input. -/
theorem C8_swallow_counterexample :
    Bus.dispatchEventsForAggregate 1 Bus.stC8
      ≠ (none,
          { Bus.stC8 with markedAggregates := [], invoked := ["h1", "h2"] }) := by
  decide

/-- C8 amended: in default local mode a synchronously-throwing handler
aborts the flush: `dispatchEventsForAggregate` propagates the exception,
only the throwing callback was invoked (later callbacks and events never
run), the aggregate's event list is not cleared and the aggregate stays in
the pending set. -/
theorem C8_throwing_handler_aborts_flush (st : Bus.BusState) (id : Nat)
    (ag : Bus.Aggregate) (ev : Bus.DomainEvent) (evs : List Bus.DomainEvent)
    (h1 h2 : Bus.LocalHandler) (hs : List Bus.LocalHandler) (msg : String)
    (hrun : st.shouldRun = true)
    (hfind : Bus.findMarkedAggregateByID st id = some ag)
    (hev : ag.domainEvents = ev :: evs)
    (hmap : st.handlersMap.find? (fun e => e.1 = ev.typeName)
        = some (ev.typeName, h1 :: h2 :: hs))
    (hthrow : h1.throwsWith = some msg) :
    Bus.dispatchEventsForAggregate id st
      = (some msg, { st with invoked := st.invoked ++ [h1.name] }) := by
  simp [Bus.dispatchEventsForAggregate, hfind, hev, Bus.dispatchEvents,
    Bus.dispatchLocal, hrun, hmap, Bus.runHandlers, hthrow]

/-- Witness for the amended C8 at the concrete state `stC8`. -/
theorem C8_throwing_handler_aborts_flush_witness :
    Bus.dispatchEventsForAggregate 1 Bus.stC8
      = (some "boom", { Bus.stC8 with invoked := ["h1"] }) :=
  C8_throwing_handler_aborts_flush Bus.stC8 1
    ⟨1, [⟨"QuestionBestAnswerChosenEvent"⟩]⟩
    ⟨"QuestionBestAnswerChosenEvent"⟩ []
    ⟨"h1", some "boom"⟩ ⟨"h2", none⟩ [] "boom"
    rfl (by decide) rfl (by decide) rfl
